import Mathlib

/-!
Verification of pybat/cli/commands/setup.py.

The module is shallow-embedded: Python structures become Lean records, the
workflow functions become pure functions returning the data they pass to the
external input-set builders together with a trace of filesystem effects, and
Python exceptions become an `Except PyErr` result.

Modelling conventions, applied throughout:
  * Cartesian coordinates are rationals (an idealisation of Python floats;
    every concrete input used below is exactly representable).
  * `np.linalg.norm(a - b)` comparisons are embedded via squared distances:
    `sqrt` is strictly monotone on nonnegatives, so the running-maximum loop
    of `find_migrating_ion` takes exactly the same branches whether it
    compares norms or squared norms (both start from 0 = sqrt 0).
  * pymatgen site equality (species, coordinates and a shared lattice) is
    embedded as decidable equality of the `Site` record; per-site properties
    are kept at structure level, mirroring how the code accesses them
    (`structure.site_properties` / `add_site_property`).
  * External library calls (input-set builders, interpolation, path finding,
    plotting) are recorded as data: either opaque function parameters of the
    embedding or constructors of an `Effect` trace.
-/

set_option linter.unusedVariables false

namespace Pybat

/-- Exception families raised by the Python code under study: `IOError`
(alias of `OSError`), `ValueError` (in particular from `list.index` on a
missing element), `FileNotFoundError` (an `OSError` subclass raised by the
file readers) and `NotImplementedError`. -/
inductive PyErr where
  | ioError
  | valueError
  | fileNotFoundError
  | notImplementedError
deriving DecidableEq

/-- A pymatgen site: a species label and Cartesian coordinates. Equality of
sites (used by Python's `list.index`) compares species and coordinates. -/
structure Site where
  species : String
  x : ℚ
  y : ℚ
  z : ℚ
deriving DecidableEq

/-- Squared Euclidean distance between the coordinates of two sites,
embedding `np.linalg.norm(site_pair[0].coords - site_pair[1].coords)`
(see the monotonicity convention in the file header). -/
def distSq (s t : Site) : ℚ :=
  (s.x - t.x) * (s.x - t.x) + (s.y - t.y) * (s.y - t.y) + (s.z - t.z) * (s.z - t.z)

/-- Association-list update with Python `dict` semantics: replace the value
at an existing key, otherwise append the binding at the end. -/
def alistSet {α : Type} : List (String × α) → String → α → List (String × α)
  | [], k, v => [(k, v)]
  | (k', v') :: rest, k, v =>
      if k' = k then (k, v) :: rest else (k', v') :: alistSet rest k v

/-- Association-list lookup: first binding for the key. -/
def alistLookup {α : Type} : List (String × α) → String → Option α
  | [], _ => none
  | (k', v') :: rest, k => if k' = k then some v' else alistLookup rest k

/-- Python `dict.update`: fold the new bindings into the dictionary, each
overwriting any existing binding for its key. -/
def dictUpdate {α : Type} (d new : List (String × α)) : List (String × α) :=
  new.foldl (fun acc kv => alistSet acc kv.1 kv.2) d

/-- A pymatgen `Structure`: an ordered list of sites together with the
per-site property table (property name to list of per-site values). -/
structure Structure where
  sites : List Site
  siteProperties : List (String × List ℚ)
deriving DecidableEq

/-- Embeds `"name" in structure.site_properties.keys()`. -/
def Structure.hasSiteProperty (s : Structure) (k : String) : Bool :=
  (alistLookup s.siteProperties k).isSome

/-- Embeds `structure.add_site_property(name, values)`: record the values
list under the property name. -/
def Structure.add_site_property (s : Structure) (k : String) (v : List ℚ) :
    Structure :=
  ⟨s.sites, alistSet s.siteProperties k v⟩

/-- The running-maximum loop of `find_migrating_ion`
(`for site_pair in zip(...)`), carrying `max_distance` (as a squared norm)
and `migrating_site`. The update fires on `distance > max_distance`. -/
def fmiLoop : List (Site × Site) → ℚ → Option Site → ℚ × Option Site
  | [], maxD, ms => (maxD, ms)
  | p :: rest, maxD, ms =>
      if maxD < distSq p.1 p.2 then fmiLoop rest (distSq p.1 p.2) (some p.1)
      else fmiLoop rest maxD ms

/-- Python `list.index`: the index of the first element equal to the query,
`ValueError` when none is. `pyIndexOpt l none` models `l.index(None)`, which
raises `ValueError` since no site equals `None`. -/
def pyIndex : List Site → Site → Except PyErr Nat
  | [], _ => .error .valueError
  | t :: rest, s =>
      if t = s then .ok 0 else (pyIndex rest s).map (fun n => n + 1)

/-- Python `list.index` applied to the possibly-`None` migrating site. -/
def pyIndexOpt (l : List Site) : Option Site → Except PyErr Nat
  | none => .error .valueError
  | some s => pyIndex l s

/-- Embeds `find_migrating_ion(initial_structure, final_structure)`:
raise `IOError` on mismatched site counts, otherwise scan the zipped site
pairs for the largest displacement and return
`initial_structure.sites.index(migrating_site)`. -/
def find_migrating_ion (ini fin : Structure) : Except PyErr Nat :=
  if ini.sites.length ≠ fin.sites.length then .error .ioError
  else pyIndexOpt ini.sites (fmiLoop (ini.sites.zip fin.sites) 0 none).2

/-! Helper lemmas about the locator. -/

theorem pyIndex_ne_ioError : ∀ (l : List Site) (s : Site),
    pyIndex l s ≠ .error .ioError := by
  intro l s
  induction l with
  | nil => simp [pyIndex]
  | cons t rest ih =>
      by_cases h : t = s
      · simp [pyIndex, h]
      · simp only [pyIndex, if_neg h]
        cases hr : pyIndex rest s with
        | ok n => simp [Except.map]
        | error e =>
            intro hc
            apply ih
            rw [hr]
            simp [Except.map] at hc
            rw [hc]

theorem pyIndexOpt_ne_ioError (l : List Site) (os : Option Site) :
    pyIndexOpt l os ≠ .error .ioError := by
  cases os with
  | none => simp [pyIndexOpt]
  | some s => exact pyIndex_ne_ioError l s

/-- When no pair beats the running maximum, the loop changes nothing. -/
theorem fmiLoop_const (l : List (Site × Site)) (maxD : ℚ) (ms : Option Site)
    (h : ∀ p ∈ l, ¬ maxD < distSq p.1 p.2) : fmiLoop l maxD ms = (maxD, ms) := by
  induction l with
  | nil => rfl
  | cons p rest ih =>
      rw [fmiLoop, if_neg (h p (List.mem_cons_self p rest))]
      exact ih (fun q hq => h q (List.mem_cons_of_mem p hq))

/-- Claim C4: `find_migrating_ion` raises an I/O-type error exactly when the
two structures have different numbers of sites. -/
theorem find_migrating_ion_ioError_iff (ini fin : Structure) :
    find_migrating_ion ini fin = .error .ioError ↔
      ini.sites.length ≠ fin.sites.length := by
  unfold find_migrating_ion
  by_cases h : ini.sites.length = fin.sites.length
  · rw [if_neg (by simp [h])]
    simp only [h, ne_eq, not_true_eq_false, iff_false]
    exact pyIndexOpt_ne_ioError _ _
  · simp [h]

/-- Claim C8: on equal-length structures in which no site's displacement is
strictly positive, the migrating site stays `None` and the final index
lookup raises `ValueError` (not an I/O-type error). -/
theorem find_migrating_ion_no_motion (ini fin : Structure)
    (hlen : ini.sites.length = fin.sites.length)
    (h : ∀ p ∈ ini.sites.zip fin.sites, distSq p.1 p.2 ≤ 0) :
    (fmiLoop (ini.sites.zip fin.sites) 0 none).2 = none ∧
      find_migrating_ion ini fin = .error .valueError := by
  have hloop : fmiLoop (ini.sites.zip fin.sites) 0 none = (0, none) :=
    fmiLoop_const _ 0 none (fun p hp => not_lt.mpr (h p hp))
  refine ⟨by rw [hloop], ?_⟩
  unfold find_migrating_ion
  rw [if_neg (by simp [hlen]), hloop]
  rfl

/-- Default site used only to totalise positional indexing in statements;
every statement below restricts indices to be in range. -/
def defaultSite : Site := ⟨"", 0, 0, 0⟩

/-- Default site pair for positional indexing of zipped site lists. -/
def defaultPair : Site × Site := (defaultSite, defaultSite)

/-- Squared displacement of site `j` between two structures (raw Cartesian
difference, no minimum-image convention, exactly as in the source). -/
def siteDisplacementSq (ini fin : Structure) (j : Nat) : ℚ :=
  distSq (ini.sites.getD j defaultSite) (fin.sites.getD j defaultSite)

theorem zip_getD (a b : List Site) (j : Nat) (hja : j < a.length)
    (hjb : j < b.length) :
    (a.zip b).getD j defaultPair =
      (a.getD j defaultSite, b.getD j defaultSite) := by
  induction a generalizing b j with
  | nil => simp at hja
  | cons s a ih =>
      cases b with
      | nil => simp at hjb
      | cons t b =>
          cases j with
          | zero => simp [List.zip_cons_cons]
          | succ j =>
              simp only [List.zip_cons_cons, List.getD_cons_succ]
              exact ih b j (by simpa using hja) (by simpa using hjb)

/-- If pair `i` strictly dominates all other pairs and beats the running
maximum, the loop ends with pair `i`'s distance and initial-side site. -/
theorem fmiLoop_max (l : List (Site × Site)) :
    ∀ (i : Nat) (maxD : ℚ) (ms : Option Site),
      i < l.length →
      maxD < distSq (l.getD i defaultPair).1 (l.getD i defaultPair).2 →
      (∀ j, j < l.length → j ≠ i →
        distSq (l.getD j defaultPair).1 (l.getD j defaultPair).2 <
          distSq (l.getD i defaultPair).1 (l.getD i defaultPair).2) →
      fmiLoop l maxD ms =
        (distSq (l.getD i defaultPair).1 (l.getD i defaultPair).2,
          some (l.getD i defaultPair).1) := by
  induction l with
  | nil => intro i maxD ms hi; simp at hi
  | cons p rest ih =>
      intro i maxD ms hi hlt hmax
      cases i with
      | zero =>
          simp only [List.getD_cons_zero] at hlt ⊢
          simp only [fmiLoop]
          rw [if_pos hlt]
          apply fmiLoop_const
          intro q hq
          obtain ⟨j, hj, rfl⟩ := List.mem_iff_getElem.mp hq
          have hd := hmax (j + 1) (by simpa using hj) (by omega)
          rw [List.getD_cons_succ, List.getD_cons_zero,
            List.getD_eq_getElem rest _ hj] at hd
          exact not_lt.mpr (le_of_lt hd)
      | succ k =>
          have hk : k < rest.length := by simpa using hi
          simp only [List.getD_cons_succ] at hlt ⊢
          have hhead : distSq p.1 p.2 <
              distSq (rest.getD k defaultPair).1 (rest.getD k defaultPair).2 := by
            have hd := hmax 0 (by simp) (by omega)
            rw [List.getD_cons_zero, List.getD_cons_succ] at hd
            exact hd
          have hrest : ∀ j, j < rest.length → j ≠ k →
              distSq (rest.getD j defaultPair).1 (rest.getD j defaultPair).2 <
                distSq (rest.getD k defaultPair).1 (rest.getD k defaultPair).2 := by
            intro j hj hne
            have hd := hmax (j + 1) (by simpa using hj) (by omega)
            rw [List.getD_cons_succ, List.getD_cons_succ] at hd
            exact hd
          simp only [fmiLoop]
          by_cases hp : maxD < distSq p.1 p.2
          · rw [if_pos hp]
            exact ih k _ _ hk hhead hrest
          · rw [if_neg hp]
            exact ih k _ _ hk hlt hrest

/-- On a duplicate-free list, Python's `list.index` of the `i`-th element
returns `i` itself. -/
theorem pyIndex_getD_nodup :
    ∀ (l : List Site) (i : Nat), i < l.length → l.Nodup →
      pyIndex l (l.getD i defaultSite) = .ok i := by
  intro l
  induction l with
  | nil => intro i hi _; simp at hi
  | cons t rest ih =>
      intro i hi hnd
      obtain ⟨hmem, hndr⟩ := List.nodup_cons.mp hnd
      cases i with
      | zero => simp [pyIndex, List.getD_cons_zero]
      | succ k =>
          have hk : k < rest.length := by simpa using hi
          have hne : ¬ t = rest.getD k defaultSite := by
            rw [List.getD_eq_getElem rest _ hk]
            intro h
            exact hmem (h ▸ List.getElem_mem hk)
          simp only [List.getD_cons_succ, pyIndex, if_neg hne]
          rw [ih k hk hndr]
          rfl

/-- Claim C1 (amended): on equal-length structures whose initial sites are
pairwise distinct, if exactly one site's displacement is strictly positive
and strictly exceeds every other site's, `find_migrating_ion` returns that
site's index. (Without the distinctness condition the final
`list.index` lookup returns the first equal site; see the counterexample.) -/
theorem find_migrating_ion_unique_max (ini fin : Structure) (i : Nat)
    (hlen : ini.sites.length = fin.sites.length)
    (hi : i < ini.sites.length)
    (hnodup : ini.sites.Nodup)
    (hpos : 0 < siteDisplacementSq ini fin i)
    (hmax : ∀ j, j < ini.sites.length → j ≠ i →
      siteDisplacementSq ini fin j < siteDisplacementSq ini fin i) :
    find_migrating_ion ini fin = .ok i := by
  have hzlen : (ini.sites.zip fin.sites).length = ini.sites.length := by
    simp [List.length_zip, hlen]
  have hzi : i < (ini.sites.zip fin.sites).length := by omega
  have hget : ∀ j, j < ini.sites.length →
      (ini.sites.zip fin.sites).getD j defaultPair =
        (ini.sites.getD j defaultSite, fin.sites.getD j defaultSite) :=
    fun j hj => zip_getD _ _ j hj (hlen ▸ hj)
  have hloop := fmiLoop_max (ini.sites.zip fin.sites) i 0 none hzi
    (by rw [hget i hi]; exact hpos)
    (by
      intro j hj hne
      rw [hget i hi, hget j (by omega)]
      exact hmax j (by omega) hne)
  unfold find_migrating_ion
  rw [if_neg (by simp [hlen]), hloop]
  show pyIndex ini.sites ((ini.sites.zip fin.sites).getD i defaultPair).1 = .ok i
  rw [hget i hi]
  exact pyIndex_getD_nodup ini.sites i hi hnodup

/-- Two-site structure with duplicate (indistinguishable) oxygen sites. -/
def dupIni : Structure := ⟨[⟨"O", 0, 0, 0⟩, ⟨"O", 0, 0, 0⟩], []⟩

/-- Final structure for the duplicate-site counterexample: only site 1 has
moved (by 2 angstroms along x). -/
def dupFin : Structure := ⟨[⟨"O", 0, 0, 0⟩, ⟨"O", 2, 0, 0⟩], []⟩

/-- Claim C1 counterexample: the structures have equal site counts and
exactly site 1 has a strictly larger displacement than every other site
(site 0 moved 0, site 1 moved 2), yet `find_migrating_ion` returns 0, the
first site equal to the stored migrating site object, not 1. -/
theorem find_migrating_ion_duplicate_cex :
    dupIni.sites.length = dupFin.sites.length ∧
    siteDisplacementSq dupIni dupFin 0 < siteDisplacementSq dupIni dupFin 1 ∧
    0 < siteDisplacementSq dupIni dupFin 1 ∧
    find_migrating_ion dupIni dupFin = .ok 0 ∧
    find_migrating_ion dupIni dupFin ≠ .ok 1 := by
  refine ⟨rfl, ?_, ?_, ?_, ?_⟩ <;>
    norm_num [siteDisplacementSq, distSq, dupIni, dupFin, defaultSite,
      find_migrating_ion, fmiLoop, pyIndexOpt, pyIndex, List.zip_cons_cons]

/-- Two-site initial structure with distinguishable species. -/
def wtIni : Structure := ⟨[⟨"Mn", 0, 0, 0⟩, ⟨"Li", 0, 0, 0⟩], []⟩

/-- Final structure for the witness: the lithium site moved 2 angstroms. -/
def wtFin : Structure := ⟨[⟨"Mn", 0, 0, 0⟩, ⟨"Li", 2, 0, 0⟩], []⟩

/-- Witness for C1 (amended): concrete distinct-site structures where site 1
is the unique maximally displaced site. -/
theorem find_migrating_ion_unique_max_witness :
    find_migrating_ion wtIni wtFin = .ok 1 :=
  find_migrating_ion_unique_max wtIni wtFin 1 rfl
    (by norm_num [wtIni])
    (by
      rw [wtIni]
      refine List.nodup_cons.mpr ⟨?_, List.nodup_singleton _⟩
      intro h
      rw [List.mem_singleton] at h
      exact absurd (congrArg Site.species h) (by decide))
    (by norm_num [siteDisplacementSq, distSq, wtIni, wtFin, defaultSite])
    (by
      intro j hj hne
      have hj0 : j = 0 := by
        rw [wtIni] at hj
        simp at hj
        omega
      subst hj0
      norm_num [siteDisplacementSq, distSq, wtIni, wtFin, defaultSite])

/-- Four identical lithium sites at the origin (scenario structure A). -/
def scenA : Structure :=
  ⟨[⟨"Li", 0, 0, 0⟩, ⟨"Li", 0, 0, 0⟩, ⟨"Li", 0, 0, 0⟩, ⟨"Li", 0, 0, 0⟩], []⟩

/-- Scenario structure B: identical to A except site 3, shifted 2 angstroms. -/
def scenB : Structure :=
  ⟨[⟨"Li", 0, 0, 0⟩, ⟨"Li", 0, 0, 0⟩, ⟨"Li", 0, 0, 0⟩, ⟨"Li", 2, 0, 0⟩], []⟩

/-- Claim C2 counterexample: with all of A's sites at the origin (hence
indistinguishable), only site 3 is displaced (by 2 angstroms), yet the
locator returns 0 — the first site equal to the stored site object — not 3. -/
theorem find_migrating_ion_scenario_cex :
    scenA.sites.length = scenB.sites.length ∧
    siteDisplacementSq scenA scenB 0 = 0 ∧
    siteDisplacementSq scenA scenB 1 = 0 ∧
    siteDisplacementSq scenA scenB 2 = 0 ∧
    siteDisplacementSq scenA scenB 3 = 4 ∧
    find_migrating_ion scenA scenB = .ok 0 ∧
    find_migrating_ion scenA scenB ≠ .ok 3 := by
  refine ⟨rfl, ?_, ?_, ?_, ?_, ?_, ?_⟩ <;>
    norm_num [siteDisplacementSq, distSq, scenA, scenB, defaultSite,
      find_migrating_ion, fmiLoop, pyIndexOpt, pyIndex, List.zip_cons_cons]

/-- Scenario structure A with pairwise-distinguishable sites at the origin. -/
def scenA' : Structure :=
  ⟨[⟨"Mn", 0, 0, 0⟩, ⟨"Ni", 0, 0, 0⟩, ⟨"O", 0, 0, 0⟩, ⟨"Li", 0, 0, 0⟩], []⟩

/-- Scenario structure B for distinguishable sites: site 3 shifted 2 Å. -/
def scenB' : Structure :=
  ⟨[⟨"Mn", 0, 0, 0⟩, ⟨"Ni", 0, 0, 0⟩, ⟨"O", 0, 0, 0⟩, ⟨"Li", 2, 0, 0⟩], []⟩

/-- Claim C2 (amended): with structure A's sites pairwise distinguishable
(distinct species) at the origin and B identical except site 3 shifted by
2 angstroms, the locator returns index 3. -/
theorem find_migrating_ion_scenario_distinct :
    find_migrating_ion scenA' scenB' = .ok 3 := by
  norm_num [find_migrating_ion, fmiLoop, distSq, pyIndexOpt, pyIndex,
    scenA', scenB', List.zip_cons_cons, Except.map]
  rw [if_neg (show ¬("Mn" = "Li") by decide),
    if_neg (show ¬("Ni" = "Li") by decide),
    if_neg (show ¬("O" = "Li") by decide)]

/-- Witness for C8: two identical one-site structures. -/
theorem find_migrating_ion_no_motion_witness :
    (fmiLoop ((Structure.mk [⟨"Li", 0, 0, 0⟩] []).sites.zip
        (Structure.mk [⟨"Li", 0, 0, 0⟩] []).sites) 0 none).2 = none ∧
      find_migrating_ion (Structure.mk [⟨"Li", 0, 0, 0⟩] [])
        (Structure.mk [⟨"Li", 0, 0, 0⟩] []) = .error .valueError :=
  find_migrating_ion_no_motion _ _ (by decide) (by norm_num [distSq])

/-! Workflow embeddings. Each workflow function is embedded as a pure
function from its inputs (structures, configuration dictionaries, abstract
stand-ins for external library operations) to the data it hands to the
external input-set builders, together with a trace of filesystem effects
in program order. -/

/-- Filesystem and plotting effects performed by the workflows, recorded in
program order. Paths are relative to the working directory. -/
inductive Effect where
  | mkdir (path : String)
  | writeRelaxInput (path : String) (s : Structure) (hse : Bool)
  | writeStaticInput (path : String) (s : Structure)
  | writeXyz (path : String)
  | writeNebInput (path : String)
  | plotImages (path : String)
  | visualizeTransition
deriving DecidableEq

/-- Data `relax` passes to `bulkRelaxSet` and the directory it writes. -/
structure RelaxOutput where
  struct : Structure
  incar : List (String × ℚ)
  dir : String
deriving DecidableEq

/-- Embeds `relax(structure_file, calculation_dir, is_metal,
hse_calculation)`. `s` is the structure loaded from the file; `hseIncar`
and `dftuIncar` are the INCAR tables of the HSESet and DFTUSet YAML
profiles (bundled data files outside src/, hence parameters here). SIGMA's
0.2 is the rational 1/5. -/
def relax (s : Structure) (hseIncar dftuIncar : List (String × ℚ))
    (calculation_dir : String) (is_metal hse_calculation : Bool) :
    RelaxOutput :=
  let s := if s.hasSiteProperty "magmom" then s
    else s.add_site_property "magmom" (List.replicate s.sites.length 0)
  let settings : List (String × ℚ) := []
  let settings := if hse_calculation then dictUpdate settings hseIncar
    else dictUpdate settings dftuIncar
  let dir := if calculation_dir = "" then
      (if hse_calculation then "hse_relax" else "dftu_relax")
    else calculation_dir
  let settings := if is_metal then
      dictUpdate settings [("ISMEAR", 1), ("SIGMA", 1/5)]
    else settings
  ⟨s, settings, dir⟩

/-- Structures `transition` passes to the two `PybatRelaxSet` builders,
with the effect trace. -/
structure TransitionOutput where
  initial : Structure
  final : Structure
  effects : List Effect
deriving DecidableEq

/-- Magmom normalisation of `transition`'s initial structure (source lines
98-100): default a missing magmom to one zero per site. -/
def transitionInitial (ini : Structure) : Structure :=
  if ini.hasSiteProperty "magmom" then ini
  else ini.add_site_property "magmom" (List.replicate ini.sites.length 0)

/-- Magmom normalisation of `transition`'s final structure (source lines
102-104): the zero list has the length of the INITIAL structure's site
list, exactly as written in the source (`[0] * len(initial_structure.sites)`;
the earlier in-place mutation of the initial structure does not change its
site count, so the original length is used here). -/
def transitionFinal (ini fin : Structure) : Structure :=
  if fin.hasSiteProperty "magmom" then fin
  else fin.add_site_property "magmom" (List.replicate ini.sites.length 0)

/-- Embeds `Structure.remove_sites([i])`: drop the site and its entries in
every per-site property list. -/
def Structure.removeSite (s : Structure) (i : Nat) : Structure :=
  ⟨s.sites.eraseIdx i, s.siteProperties.map (fun kv => (kv.1, kv.2.eraseIdx i))⟩

/-- Embeds `transition(directory, initial_structure, final_structure,
is_migration, hse_calculation)`: normalise magmoms, write the two
optimisation inputs, and when `is_migration` locate the migrating ion and
write the host static calculation (exceptions from the locator propagate). -/
def transition (directory : String) (ini fin : Structure)
    (is_migration hse_calculation : Bool) : Except PyErr TransitionOutput :=
  let ini' := transitionInitial ini
  let fin' := transitionFinal ini fin
  let base := [Effect.writeRelaxInput (directory ++ "/initial") ini' hse_calculation,
    Effect.writeRelaxInput (directory ++ "/final") fin' hse_calculation]
  if is_migration then
    match find_migrating_ion ini' fin' with
    | .error e => .error e
    | .ok idx =>
        .ok ⟨ini', fin',
          base ++ [Effect.writeStaticInput (directory ++ "/host")
            (ini'.removeSite idx)]⟩
  else .ok ⟨ini', fin', base⟩

/-- A non-equivalent dimer of a Li-rich cathode, reduced to its pair of
site indices. The dimer search (`find_noneq_dimers`) lives in pybat.core,
outside src/, so dimers are abstract inputs of the embedding. -/
structure Dimer where
  fst : Nat
  snd : Nat
deriving DecidableEq

/-- Abstract Li-rich cathode: the structure `as_structure()` yields and the
dimer list `find_noneq_dimers()` yields. `pybat.core.LiRichCathode` is
outside src/, so both are taken as inputs. -/
structure LiRichCathode where
  struct : Structure
  noneqDimers : List Dimer

/-- The per-dimer loop of `dimers`. `csd` abstracts
`change_site_distance` (pybat.core, outside src/); it is pure, and the
source calls it just before the `hse_calculation` check, so raising after
it is observationally the trace recorded here. Returns the effect trace
and the exception the loop raises, if any. -/
def dimersLoop (csd : Structure → Nat × Nat → ℚ → Structure)
    (cathodeStruct : Structure) (dimer_distance : ℚ)
    (hse_calculation : Bool) : List Dimer → List Effect × Option PyErr
  | [] => ([], none)
  | d :: rest =>
      let dd := toString d.fst ++ "_" ++ toString d.snd
      if hse_calculation then
        ([Effect.mkdir dd, Effect.mkdir (dd ++ "/final"),
          Effect.writeXyz (dd ++ "/dimer.xyz")], some PyErr.notImplementedError)
      else
        (Effect.mkdir dd :: Effect.mkdir (dd ++ "/final") ::
          Effect.writeXyz (dd ++ "/dimer.xyz") ::
          Effect.writeRelaxInput (dd ++ "/final")
            (csd cathodeStruct (d.fst, d.snd) dimer_distance) hse_calculation ::
          (dimersLoop csd cathodeStruct dimer_distance hse_calculation rest).1,
        (dimersLoop csd cathodeStruct dimer_distance hse_calculation rest).2)

/-- Embeds `dimers(structure_file, dimer_distance, is_metal,
hse_calculation)`: write the initial optimisation, then per dimer create
the directories, write the visualization, and either raise
`NotImplementedError` (HSE) or write the dimer optimisation. `is_metal` is
accepted and unused, as in the source. -/
def dimers (csd : Structure → Nat × Nat → ℚ → Structure)
    (cathode : LiRichCathode) (dimer_distance : ℚ)
    (is_metal hse_calculation : Bool) : List Effect × Option PyErr :=
  (Effect.mkdir "initial" ::
    Effect.writeRelaxInput "initial" cathode.struct hse_calculation ::
    (dimersLoop csd cathode.struct dimer_distance hse_calculation
      cathode.noneqDimers).1,
  (dimersLoop csd cathode.struct dimer_distance hse_calculation
    cathode.noneqDimers).2)

/-- Opaque stand-in for a CHGCAR charge density read from disk. -/
structure Chgcar where
  data : List ℚ
deriving DecidableEq

/-- Stand-in for pymatgen's `ChgcarPotential` wrapper. -/
structure ChgcarPotential where
  chgcar : Chgcar
deriving DecidableEq

/-- The file inputs and external operations `neb` interacts with: optional
file contents (`none` models `FileNotFoundError` on read) and the two
image-producing library operations, abstracted as functions. -/
structure NebEnv where
  initialContcar : Option Structure
  initialOutcarMagmom : Option (List ℚ)
  initialJson : Option Structure
  finalContcar : Option Structure
  hostChgcar : Option Chgcar
  pathfinderImages : Structure → Structure → Nat → ChgcarPotential → List Structure
  interpolate : Structure → Structure → Nat → List Structure

/-- The images `neb` hands to `PybatNEBSet` and the effect trace. -/
structure NebOutput where
  images : List Structure
  effects : List Effect

/-- The try/except block of `neb` (source lines 220-233): read CONTCAR and
OUTCAR of the initial directory and attach the OUTCAR magnetization as
magmoms; on a `FileNotFoundError` from either read, fall back to
structure.json (whose own absence propagates). -/
def nebInitial (env : NebEnv) : Except PyErr Structure :=
  match env.initialContcar with
  | none =>
      match env.initialJson with
      | some s => .ok s
      | none => .error .fileNotFoundError
  | some s =>
      match env.initialOutcarMagmom with
      | none =>
          match env.initialJson with
          | some s' => .ok s'
          | none => .error .fileNotFoundError
      | some mag => .ok (s.add_site_property "magmom" mag)

/-- Embeds `neb(directory, nimages, is_migration, hse_calculation)`: read
the relaxed endpoints (with the initial-structure fallback), then either
run the potential-guided path search over the host charge density and plot
it, or linearly interpolate; finally write the NEB inputs and the
transition visualization. -/
def neb (directory : String) (env : NebEnv) (nimages : Nat)
    (is_migration : Bool) : Except PyErr NebOutput :=
  match nebInitial env with
  | .error e => .error e
  | .ok initial_structure =>
      match env.finalContcar with
      | none => .error .fileNotFoundError
      | some final_structure =>
          if is_migration then
            match env.hostChgcar with
            | none => .error .fileNotFoundError
            | some chg =>
                match find_migrating_ion initial_structure final_structure with
                | .error e => .error e
                | .ok idx =>
                    .ok ⟨env.pathfinderImages initial_structure final_structure
                        idx (ChgcarPotential.mk chg),
                      [Effect.plotImages "neb.vasp",
                        Effect.writeNebInput directory, Effect.visualizeTransition]⟩
          else
            .ok ⟨env.interpolate initial_structure final_structure nimages,
              [Effect.writeNebInput directory, Effect.visualizeTransition]⟩

/-! Association-list lemmas used for the INCAR and magmom properties. -/

theorem alistLookup_set_self {α : Type} (d : List (String × α)) (k : String)
    (v : α) : alistLookup (alistSet d k v) k = some v := by
  induction d with
  | nil => simp [alistSet, alistLookup]
  | cons kv rest ih =>
      by_cases h : kv.1 = k
      · simp [alistSet, h, alistLookup]
      · simp only [alistSet]
        rw [if_neg (by exact h)]
        simp only [alistLookup]
        rw [if_neg (by exact h)]
        exact ih

theorem alistLookup_set_ne {α : Type} (d : List (String × α)) (k k' : String)
    (v : α) (h : k' ≠ k) :
    alistLookup (alistSet d k v) k' = alistLookup d k' := by
  induction d with
  | nil =>
      simp only [alistSet, alistLookup]
      rw [if_neg (fun hc : k = k' => h hc.symm)]
  | cons kv rest ih =>
      by_cases hk : kv.1 = k
      · simp only [alistSet]
        rw [if_pos hk]
        simp only [alistLookup]
        rw [if_neg (fun hc : k = k' => h hc.symm),
          if_neg (fun hc : kv.1 = k' => h (hc.symm.trans hk))]
      · simp only [alistSet]
        rw [if_neg hk]
        simp only [alistLookup]
        by_cases hk' : kv.1 = k'
        · rw [if_pos hk', if_pos hk']
        · rw [if_neg hk', if_neg hk']
          exact ih

/-- Claim C7: with `is_metal` false the INCAR settings are exactly the
selected profile folded into an empty dict; with `is_metal` true they are
that profile further updated with ISMEAR = 1 and SIGMA = 0.2, the smearing
overrides taking precedence (ISMEAR and SIGMA read back as the overrides,
every other key reads back as in the profile). -/
theorem relax_incar_settings (s : Structure)
    (hseIncar dftuIncar : List (String × ℚ)) (cdir : String) (hse : Bool) :
    (relax s hseIncar dftuIncar cdir false hse).incar =
        dictUpdate [] (if hse then hseIncar else dftuIncar) ∧
    (relax s hseIncar dftuIncar cdir true hse).incar =
        dictUpdate (dictUpdate [] (if hse then hseIncar else dftuIncar))
          [("ISMEAR", 1), ("SIGMA", 1/5)] ∧
    alistLookup (relax s hseIncar dftuIncar cdir true hse).incar "ISMEAR" =
        some 1 ∧
    alistLookup (relax s hseIncar dftuIncar cdir true hse).incar "SIGMA" =
        some (1/5) ∧
    (∀ k, k ≠ "ISMEAR" → k ≠ "SIGMA" →
      alistLookup (relax s hseIncar dftuIncar cdir true hse).incar k =
        alistLookup (dictUpdate [] (if hse then hseIncar else dftuIncar)) k) := by
  have hincarF : (relax s hseIncar dftuIncar cdir false hse).incar =
      dictUpdate [] (if hse then hseIncar else dftuIncar) := by
    cases hse <;> rfl
  have hincarT : (relax s hseIncar dftuIncar cdir true hse).incar =
      alistSet (alistSet (dictUpdate [] (if hse then hseIncar else dftuIncar))
        "ISMEAR" 1) "SIGMA" (1/5) := by
    cases hse <;> rfl
  have hpair : dictUpdate (dictUpdate [] (if hse then hseIncar else dftuIncar))
      [("ISMEAR", (1 : ℚ)), ("SIGMA", 1/5)] =
      alistSet (alistSet (dictUpdate [] (if hse then hseIncar else dftuIncar))
        "ISMEAR" 1) "SIGMA" (1/5) := rfl
  refine ⟨hincarF, hincarT.trans hpair.symm, ?_, ?_, ?_⟩
  · rw [hincarT, alistLookup_set_ne _ _ _ _ (by decide), alistLookup_set_self]
  · rw [hincarT, alistLookup_set_self]
  · intro k hk1 hk2
    rw [hincarT, alistLookup_set_ne _ _ _ _ hk2, alistLookup_set_ne _ _ _ _ hk1]

/-- Witness for C7: a DFTU profile that itself sets ISMEAR to 0 is
overridden by the metal smearing, while its other keys survive. -/
theorem relax_incar_settings_witness :
    alistLookup (relax ⟨[], []⟩ [("LHFCALC", 1)] [("LDAU", 1), ("ISMEAR", 0)]
        "" true false).incar "ISMEAR" = some 1 ∧
    alistLookup (relax ⟨[], []⟩ [("LHFCALC", 1)] [("LDAU", 1), ("ISMEAR", 0)]
        "" true false).incar "LDAU" = some 1 := by
  have h := relax_incar_settings ⟨[], []⟩ [("LHFCALC", 1)]
    [("LDAU", 1), ("ISMEAR", 0)] "" false
  refine ⟨h.2.2.1, ?_⟩
  have hk := h.2.2.2.2 "LDAU" (by decide) (by decide)
  rw [hk]
  rfl

/-- A structure records a zero magnetic moment for each of its own sites. -/
def magmomZeroed (s : Structure) : Prop :=
  alistLookup s.siteProperties "magmom" = some (List.replicate s.sites.length 0)

/-- One-site initial structure without magmoms. -/
def c3Ini : Structure := ⟨[⟨"Li", 0, 0, 0⟩], []⟩

/-- Two-site final structure without magmoms. -/
def c3Fin : Structure := ⟨[⟨"O", 0, 0, 0⟩, ⟨"O", 1, 0, 0⟩], []⟩

/-- Claim C3 counterexample: both inputs lack magmoms and `transition`
succeeds, but the final structure it builds inputs from carries a magmom
list of length 1 (the initial structure's site count) for its 2 sites, so
not every site of every structure used was assigned a zero. -/
theorem transition_magmom_cex :
    c3Ini.hasSiteProperty "magmom" = false ∧
    c3Fin.hasSiteProperty "magmom" = false ∧
    transition "t" c3Ini c3Fin false false =
      .ok ⟨transitionInitial c3Ini, transitionFinal c3Ini c3Fin,
        [Effect.writeRelaxInput "t/initial" (transitionInitial c3Ini) false,
          Effect.writeRelaxInput "t/final" (transitionFinal c3Ini c3Fin) false]⟩ ∧
    ¬ magmomZeroed (transitionFinal c3Ini c3Fin) := by
  refine ⟨rfl, rfl, rfl, ?_⟩
  simp [magmomZeroed, transitionFinal, c3Ini, c3Fin, Structure.hasSiteProperty,
    Structure.add_site_property, alistSet, alistLookup, List.replicate]

/-- Claim C3 (amended): `relax` and `transition`'s initial structure are
zero-filled when magmoms are missing; `transition`'s final structure
receives zeros of the initial structure's length; `dimers` passes the
cathode structure to the input-set builder without any magmom
normalisation; and `neb` attaches the OUTCAR magnetization (not zeros)
when both initial output files are present. -/
theorem workflow_magmom_normalization :
    (∀ (s : Structure) (hseI dftuI : List (String × ℚ)) (cdir : String)
        (m hse : Bool), s.hasSiteProperty "magmom" = false →
      magmomZeroed (relax s hseI dftuI cdir m hse).struct) ∧
    (∀ ini : Structure, ini.hasSiteProperty "magmom" = false →
      magmomZeroed (transitionInitial ini)) ∧
    (∀ ini fin : Structure, fin.hasSiteProperty "magmom" = false →
      alistLookup (transitionFinal ini fin).siteProperties "magmom" =
        some (List.replicate ini.sites.length 0)) ∧
    (∀ (csd : Structure → Nat × Nat → ℚ → Structure)
        (cathode : LiRichCathode) (dist : ℚ) (m hse : Bool),
      (dimers csd cathode dist m hse).1.take 2 =
        [Effect.mkdir "initial",
          Effect.writeRelaxInput "initial" cathode.struct hse]) ∧
    (∀ (env : NebEnv) (s : Structure) (mag : List ℚ),
      env.initialContcar = some s → env.initialOutcarMagmom = some mag →
      nebInitial env = .ok (s.add_site_property "magmom" mag)) := by
  refine ⟨?_, ?_, ?_, ?_, ?_⟩
  · intro s hseI dftuI cdir m hse h
    have hstruct : (relax s hseI dftuI cdir m hse).struct =
        s.add_site_property "magmom" (List.replicate s.sites.length 0) := by
      simp [relax, h]
    rw [hstruct]
    exact alistLookup_set_self _ _ _
  · intro ini h
    have hstruct : transitionInitial ini =
        ini.add_site_property "magmom" (List.replicate ini.sites.length 0) := by
      simp [transitionInitial, h]
    rw [magmomZeroed, hstruct]
    exact alistLookup_set_self _ _ _
  · intro ini fin h
    have hstruct : transitionFinal ini fin =
        fin.add_site_property "magmom" (List.replicate ini.sites.length 0) := by
      simp [transitionFinal, h]
    rw [hstruct]
    exact alistLookup_set_self _ _ _
  · intro csd cathode dist m hse
    simp [dimers, List.take_succ_cons, List.take_zero]
  · intro env s mag h1 h2
    simp [nebInitial, h1, h2]

/-- Env with both initial output files present, for the C3 witness. -/
def wEnvA : NebEnv :=
  ⟨some ⟨[⟨"Li", 0, 0, 0⟩], []⟩, some [1], none, none, none,
    fun a _ _ _ => [a], fun a _ _ => [a]⟩

/-- Witness for C3 (amended), instantiating each conjunct concretely. -/
theorem workflow_magmom_normalization_witness :
    magmomZeroed (relax ⟨[⟨"Li", 0, 0, 0⟩], []⟩ [] [] "" false false).struct ∧
    magmomZeroed (transitionInitial ⟨[⟨"Li", 0, 0, 0⟩], []⟩) ∧
    alistLookup (transitionFinal c3Ini c3Fin).siteProperties "magmom" =
      some (List.replicate c3Ini.sites.length 0) ∧
    (dimers (fun s _ _ => s) ⟨⟨[], []⟩, []⟩ 1 false false).1.take 2 =
      [Effect.mkdir "initial", Effect.writeRelaxInput "initial" ⟨[], []⟩ false] ∧
    nebInitial wEnvA =
      .ok ((Structure.mk [⟨"Li", 0, 0, 0⟩] []).add_site_property "magmom" [1]) := by
  obtain ⟨h1, h2, h3, h4, h5⟩ := workflow_magmom_normalization
  exact ⟨h1 _ [] [] "" false false rfl, h2 _ rfl, h3 c3Ini c3Fin rfl,
    h4 _ _ 1 false false, h5 wEnvA _ _ rfl rfl⟩

/-- Claim C10: when the final structure lacks magmoms, `transition` assigns
it a zero list of the INITIAL structure's length; with differing site
counts the assigned list's length differs from the final structure's own
site count. -/
theorem transition_final_magmom_length (dir : String) (ini fin : Structure)
    (hse : Bool) (h : fin.hasSiteProperty "magmom" = false) :
    alistLookup (transitionFinal ini fin).siteProperties "magmom" =
      some (List.replicate ini.sites.length 0) ∧
    (transitionFinal ini fin).sites = fin.sites ∧
    transition dir ini fin false hse =
      .ok ⟨transitionInitial ini, transitionFinal ini fin,
        [Effect.writeRelaxInput (dir ++ "/initial") (transitionInitial ini) hse,
          Effect.writeRelaxInput (dir ++ "/final") (transitionFinal ini fin) hse]⟩ ∧
    (ini.sites.length ≠ fin.sites.length →
      (List.replicate ini.sites.length (0 : ℚ)).length ≠
        (transitionFinal ini fin).sites.length) := by
  have hfin : transitionFinal ini fin =
      fin.add_site_property "magmom" (List.replicate ini.sites.length 0) := by
    simp [transitionFinal, h]
  refine ⟨?_, ?_, rfl, ?_⟩
  · rw [hfin]
    exact alistLookup_set_self _ _ _
  · rw [hfin]
    rfl
  · intro hne
    rw [hfin]
    simpa using hne

/-- Witness for C10: one-site initial, two-site final, both magmom-free. -/
theorem transition_final_magmom_length_witness :
    alistLookup (transitionFinal c3Ini c3Fin).siteProperties "magmom" =
      some (List.replicate c3Ini.sites.length 0) ∧
    (List.replicate c3Ini.sites.length (0 : ℚ)).length ≠
      (transitionFinal c3Ini c3Fin).sites.length := by
  have h := transition_final_magmom_length "t" c3Ini c3Fin false rfl
  exact ⟨h.1, h.2.2.2 (by decide)⟩

/-- Claim C9: with at least one non-equivalent dimer and HSE requested,
`dimers` ends in `NotImplementedError`, but only after the initial
optimisation inputs, the first dimer's directories and its dimer.xyz
visualization have been written (they head the effect trace). -/
theorem dimers_hse_raises_after_writes
    (csd : Structure → Nat × Nat → ℚ → Structure) (cathode : LiRichCathode)
    (dist : ℚ) (m : Bool) (d : Dimer) (rest : List Dimer)
    (h : cathode.noneqDimers = d :: rest) :
    dimers csd cathode dist m true =
      ([Effect.mkdir "initial",
        Effect.writeRelaxInput "initial" cathode.struct true,
        Effect.mkdir (toString d.fst ++ "_" ++ toString d.snd),
        Effect.mkdir (toString d.fst ++ "_" ++ toString d.snd ++ "/final"),
        Effect.writeXyz (toString d.fst ++ "_" ++ toString d.snd ++ "/dimer.xyz")],
      some PyErr.notImplementedError) := by
  simp [dimers, h, dimersLoop]

/-- Cathode with a single dimer between sites 0 and 1, for the C9 witness. -/
def wCathode : LiRichCathode := ⟨⟨[⟨"O", 0, 0, 0⟩], []⟩, [⟨0, 1⟩]⟩

/-- Witness for C9. -/
theorem dimers_hse_raises_after_writes_witness :
    dimers (fun s _ _ => s) wCathode 1 false true =
      ([Effect.mkdir "initial",
        Effect.writeRelaxInput "initial" wCathode.struct true,
        Effect.mkdir "0_1", Effect.mkdir "0_1/final",
        Effect.writeXyz "0_1/dimer.xyz"], some PyErr.notImplementedError) := by
  have h := dimers_hse_raises_after_writes (fun s _ _ => s) wCathode 1 false
    ⟨0, 1⟩ [] rfl
  simpa using h

/-- Claim C5: with the migration flag the images come from the path search
over a `ChgcarPotential` of the host charge density and a plot artifact is
rendered; without it the images come from interpolating the endpoints with
`nimages`. -/
theorem neb_branching (dir : String) (env : NebEnv) (n : Nat)
    (si sf : Structure) (c : Chgcar) (idx : Nat)
    (hini : nebInitial env = .ok si)
    (hfin : env.finalContcar = some sf)
    (hchg : env.hostChgcar = some c)
    (hmi : find_migrating_ion si sf = .ok idx) :
    neb dir env n true =
      .ok ⟨env.pathfinderImages si sf idx (ChgcarPotential.mk c),
        [Effect.plotImages "neb.vasp", Effect.writeNebInput dir,
          Effect.visualizeTransition]⟩ ∧
    neb dir env n false =
      .ok ⟨env.interpolate si sf n,
        [Effect.writeNebInput dir, Effect.visualizeTransition]⟩ := by
  constructor <;> simp [neb, hini, hfin, hchg, hmi]

/-- Env with every required file present, for the C5 witness. -/
def wEnvB : NebEnv :=
  ⟨some ⟨[⟨"Li", 0, 0, 0⟩], []⟩, some [0], none, some ⟨[⟨"Li", 1, 0, 0⟩], []⟩,
    some ⟨[]⟩, fun a b _ _ => [a, b], fun a b _ => [a, b]⟩

/-- Witness for C5. -/
theorem neb_branching_witness :
    neb "d" wEnvB 8 true =
      .ok ⟨[⟨[⟨"Li", 0, 0, 0⟩], [("magmom", [0])]⟩, ⟨[⟨"Li", 1, 0, 0⟩], []⟩],
        [Effect.plotImages "neb.vasp", Effect.writeNebInput "d",
          Effect.visualizeTransition]⟩ ∧
    neb "d" wEnvB 8 false =
      .ok ⟨[⟨[⟨"Li", 0, 0, 0⟩], [("magmom", [0])]⟩, ⟨[⟨"Li", 1, 0, 0⟩], []⟩],
        [Effect.writeNebInput "d", Effect.visualizeTransition]⟩ := by
  have h := neb_branching "d" wEnvB 8
    ⟨[⟨"Li", 0, 0, 0⟩], [("magmom", [0])]⟩ ⟨[⟨"Li", 1, 0, 0⟩], []⟩ ⟨[]⟩ 0
    rfl rfl rfl
    (by norm_num [find_migrating_ion, fmiLoop, distSq, pyIndexOpt, pyIndex,
      List.zip_cons_cons])
  simpa using h

/-- Claim C6: if CONTCAR or OUTCAR of the initial directory is missing, the
initial structure falls back to structure.json; a missing final CONTCAR
has no fallback and the error propagates out of `neb`. -/
theorem neb_initial_fallback (dir : String) (env : NebEnv) (n : Nat)
    (b : Bool) (sj : Structure)
    (hmiss : env.initialContcar = none ∨ env.initialOutcarMagmom = none)
    (hjson : env.initialJson = some sj) :
    nebInitial env = .ok sj ∧
    (env.finalContcar = none →
      neb dir env n b = .error .fileNotFoundError) := by
  have h1 : nebInitial env = .ok sj := by
    rcases hmiss with h | h
    · simp [nebInitial, h, hjson]
    · cases hc : env.initialContcar with
      | none => simp [nebInitial, hc, hjson]
      | some s => simp [nebInitial, hc, h, hjson]
  refine ⟨h1, fun hf => ?_⟩
  simp [neb, h1, hf]

/-- Env with CONTCAR and final CONTCAR missing but a JSON snapshot present,
for the C6 witness. -/
def wEnvC : NebEnv :=
  ⟨none, none, some ⟨[⟨"Li", 0, 0, 0⟩], []⟩, none, none,
    fun a _ _ _ => [a], fun a _ _ => [a]⟩

/-- Witness for C6. -/
theorem neb_initial_fallback_witness :
    nebInitial wEnvC = .ok ⟨[⟨"Li", 0, 0, 0⟩], []⟩ ∧
    neb "d" wEnvC 8 false = .error .fileNotFoundError := by
  have h := neb_initial_fallback "d" wEnvC 8 false ⟨[⟨"Li", 0, 0, 0⟩], []⟩
    (Or.inl rfl) rfl
  exact ⟨h.1, h.2 rfl⟩

end Pybat
